import Mathlib

/-!
Verification of the cocs-bot Cloudflare-Pages-to-Discord webhook relay.

The development shallowly embeds the JavaScript sources:
  * `src/cloudflare.js` (payload parser, validator, duration formatter),
  * `src/index.js` (webhook handler, secure secret comparison),
  * `src/discord.js` (embed renderer).

JavaScript values occurring in webhook payloads are modelled by `JsVal`
(JSON values plus `undefined`); numbers are modelled by `ℚ` (floating-point
rounding of webhook payload numbers is not load-bearing anywhere in this
code, and `NaN` never arises on the paths the theorems speak about).
Property access on `null`/`undefined` throws in JavaScript, so fallible
code is modelled with `Except Unit`.
-/

/-- A JavaScript value as it can appear in a parsed webhook payload:
`undefined`, `null`, booleans, numbers (modelled as `ℚ`), strings,
arrays and plain objects (ordered key/value lists). -/
inductive JsVal where
  | undefined : JsVal
  | null : JsVal
  | bool (b : Bool) : JsVal
  | num (q : ℚ) : JsVal
  | str (s : String) : JsVal
  | arr (elems : List JsVal) : JsVal
  | obj (fields : List (String × JsVal)) : JsVal

namespace JsVal

/-- JavaScript truthiness: `undefined`, `null`, `false`, `0` and `""`
are falsy; everything else (including every object and array) is truthy. -/
def truthy : JsVal → Bool
  | .undefined => false
  | .null => false
  | .bool b => b
  | .num q => q != 0
  | .str s => s != ""
  | .arr _ => true
  | .obj _ => true

/-- Property read `v[k]` on a value that is not `null`/`undefined`:
objects yield the stored field (or `undefined` when the key is missing);
primitives and arrays yield `undefined` for the (data) keys this codebase
reads. -/
def get (v : JsVal) (k : String) : JsVal :=
  match v with
  | .obj fields => ((fields.find? fun p => p.1 == k).map Prod.snd).getD .undefined
  | _ => .undefined

/-- Optional chaining `v?.k`: `undefined` when the receiver is
`null`/`undefined`, an ordinary property read otherwise. -/
def getOpt (v : JsVal) (k : String) : JsVal :=
  match v with
  | .undefined => .undefined
  | .null => .undefined
  | v => v.get k

end JsVal

/-- The JavaScript `a || b` operator on values: `a` when `a` is truthy,
otherwise `b` (whatever `b` is, truthy or not). -/
def jsOr (a b : JsVal) : JsVal :=
  if a.truthy then a else b

/-- Strict equality `v === "lit"` of an arbitrary value against a string
literal: true exactly when `v` is that string. -/
def jsEqStrLit (v : JsVal) (s : String) : Bool :=
  match v with
  | .str t => t == s
  | _ => false

/-- Specification-shaped field resolution: the first truthy candidate in
the list wins, otherwise the final fallback value. -/
def firstTruthy : List JsVal → JsVal → JsVal
  | [], d => d
  | v :: vs, d => if v.truthy then v else firstTruthy vs d

/-- The canonical deployment-info record produced by
`parseDeploymentEvent` in `src/cloudflare.js`. Field values keep their
JavaScript shape (`JsVal`): the parser copies whatever the payload holds. -/
structure DeploymentInfo where
  id : JsVal
  projectName : JsVal
  environment : JsVal
  status : JsVal
  isSuccess : Bool
  isFailure : Bool
  branch : JsVal
  commitHash : JsVal
  commitMessage : JsVal
  commitAuthor : JsVal
  deploymentUrl : JsVal
  buildLogsUrl : JsVal
  commitUrl : JsVal
  buildTime : JsVal
  createdAt : JsVal
  error : JsVal
  errorMessage : JsVal
  stages : JsVal
  latestStage : JsVal
  raw : JsVal

/-- `parseDeploymentEvent(payload)` from `src/cloudflare.js`.

`now` stands for `new Date().toISOString()` (the only impure expression in
the function). The single way the function can throw is the very first
property read `payload.deployment`, which in JavaScript raises a
`TypeError` when `payload` is `null` or `undefined`; that is the `.error`
case of the match. After `const deployment = payload.deployment || payload`,
the receiver `deployment` can never be `null`/`undefined` (a `null` or
`undefined` `payload.deployment` is falsy, so `||` falls back to `payload`,
which the match already ruled out), hence every later property read is
throw-free and is modelled by the total `JsVal.get` / `JsVal.getOpt`. -/
def parseDeploymentEvent (now : String) (payload : JsVal) : Except Unit DeploymentInfo :=
  match payload with
  | .undefined => .error ()
  | .null => .error ()
  | payload =>
    let deployment := jsOr (payload.get "deployment") payload
    -- `deployment.latest_stage?.status`, read three times in the source
    let latestStageStatus := (deployment.get "latest_stage").getOpt "status"
    .ok {
      id := jsOr (deployment.get "id") (deployment.get "deployment_id")
      projectName := jsOr (deployment.get "project_name")
        (jsOr (payload.get "project_name") (.str "tlc-survey"))
      environment := jsOr (deployment.get "environment") (.str "production")
      status := jsOr latestStageStatus
        (jsOr (deployment.get "status") (.str "unknown"))
      isSuccess := jsEqStrLit (jsOr latestStageStatus (deployment.get "status")) "success"
      isFailure := jsEqStrLit (jsOr latestStageStatus (deployment.get "status")) "failure"
      branch := jsOr (deployment.get "branch")
        (jsOr (deployment.get "git_branch") (.str "main"))
      commitHash := jsOr (deployment.get "commit_hash")
        (jsOr (deployment.get "git_commit_hash") (.str ""))
      commitMessage := jsOr (deployment.get "commit_message") (.str "")
      commitAuthor := jsOr (deployment.get "commit_author")
        (jsOr (deployment.get "author") (.str ""))
      deploymentUrl := jsOr (deployment.get "url")
        (jsOr (deployment.get "deployment_url") (.str ""))
      buildLogsUrl := jsOr (deployment.get "build_logs_url")
        (jsOr (deployment.get "logs_url") (.str ""))
      commitUrl := jsOr (deployment.get "commit_url") (.str "")
      buildTime := jsOr (deployment.get "build_time")
        (jsOr (deployment.get "duration") .null)
      createdAt := jsOr (deployment.get "created_at")
        (jsOr (deployment.get "created_on") (.str now))
      error := jsOr (deployment.get "error")
        (jsOr (deployment.get "build_error") .null)
      errorMessage := jsOr (deployment.get "error_message")
        (jsOr (deployment.get "message") .null)
      stages := jsOr (deployment.get "stages") (.arr [])
      latestStage := jsOr (deployment.get "latest_stage") .null
      raw := payload
    }

/-- The expression `deployment.latest_stage?.status || deployment.status`
whose value lines 23-25 of `src/cloudflare.js` classify (`status` adds a
final `|| 'unknown'` on top of it). -/
def resolvedStatus (payload : JsVal) : JsVal :=
  let deployment := jsOr (payload.get "deployment") payload
  jsOr ((deployment.get "latest_stage").getOpt "status") (deployment.get "status")

/-- `typeof v === 'object'` — true for `null`, arrays and plain objects. -/
def jsTypeofObject : JsVal → Bool
  | .null => true
  | .arr _ => true
  | .obj _ => true
  | _ => false

/-- `isValidPayload(payload)` from `src/cloudflare.js`. -/
def isValidPayload (payload : JsVal) : Bool :=
  if !payload.truthy || !jsTypeofObject payload then false
  else
    let hasDeployment := jsOr (payload.get "deployment")
      (jsOr (payload.get "deployment_id") (payload.get "id"))
    let hasStatus := jsOr (payload.get "status")
      (jsOr ((payload.get "deployment").getOpt "status")
        ((payload.get "latest_stage").getOpt "status"))
    (jsOr hasDeployment hasStatus).truthy

/-- Rendering of a number by JavaScript string coercion. Integers are
rendered exactly (the only case the worker produces on the paths the
theorems inspect); for non-integral rationals the decimal expansion of a
double is not modelled and a fraction is rendered instead. -/
def qToString (q : ℚ) : String :=
  if q.den = 1 then toString q.num
  else toString q.num ++ "/" ++ toString q.den

/-- JavaScript string coercion `String(v)` as used by template literals in
the worker. Arrays render as their comma-joined elements with
`null`/`undefined` elements rendered empty; plain objects render as
`[object Object]`. -/
def jsToString : JsVal → String
  | .undefined => "undefined"
  | .null => "null"
  | .bool true => "true"
  | .bool false => "false"
  | .num q => qToString q
  | .str s => s
  | .obj _ => "[object Object]"
  | .arr xs => String.intercalate ","
      (xs.attach.map fun x =>
        match x with
        | ⟨.undefined, _⟩ => ""
        | ⟨.null, _⟩ => ""
        | ⟨v, hv⟩ => jsToString v)
decreasing_by
  all_goals simp_wf
  all_goals (have hlt := List.sizeOf_lt_of_mem hv; omega)

/-- `getCommitUrl(repoOwner, repoName, commitHash)` from
`src/cloudflare.js`: empty string for a falsy hash, otherwise the GitHub
commit URL template. (`jsToString` renders the interpolated values; in the
worker they are strings.) -/
def getCommitUrl (repoOwner repoName commitHash : JsVal) : JsVal :=
  if !commitHash.truthy then .str ""
  else .str ("https://github.com/" ++ jsToString repoOwner ++ "/" ++
    jsToString repoName ++ "/commit/" ++ jsToString commitHash)

/-- `Math.round`: round half toward positive infinity. -/
def jsRound (q : ℚ) : ℤ := ⌊q + 1 / 2⌋

/-- JavaScript numeric coercion `Number(v)`, restricted to the truthy
values that can reach the arithmetic in `formatBuildTime`; `none` stands
for `NaN`. String-to-number parsing is modelled for integer numerals only
and array coercion is approximated as `NaN` — neither corner is reachable
from any theorem below, which only evaluate the formatter at numbers. -/
def jsToNumber : JsVal → Option ℚ
  | .num q => some q
  | .bool b => some (if b then 1 else 0)
  | .null => some 0
  | .str s => (s.toInt?).map fun n => (n : ℚ)
  | _ => none

/-- `formatBuildTime(seconds)` from `src/cloudflare.js` (the copy in
`src/discord.js` is textually identical): falsy input renders `"N/A"`,
under a minute renders rounded seconds, otherwise minutes with the rounded
remainder of `seconds % 60` appended unless that remainder rounds to zero.
A `NaN` coercion (unreachable for the `number | null` inputs the callers
produce) renders the `"NaNm NaNs"` string the JavaScript arithmetic
produces. -/
def formatBuildTime (seconds : JsVal) : String :=
  if !seconds.truthy then "N/A"
  else
    match jsToNumber seconds with
    | some q =>
      if q < 60 then toString (jsRound q) ++ "s"
      else
        let minutes : ℤ := ⌊q / 60⌋
        -- `q % 60` in JavaScript; `q ≥ 60 > 0` here, so truncated and
        -- floored division agree
        let remainingSeconds : ℤ := jsRound (q - 60 * minutes)
        if remainingSeconds = 0 then toString minutes ++ "m"
        else toString minutes ++ "m " ++ toString remainingSeconds ++ "s"
    | none => "NaNm NaNs"

/-- The XOR-accumulation loop of `secureCompare` in `src/index.js`:
`result |= a.charCodeAt(i) ^ b.charCodeAt(i)` over all positions. -/
def xorAccumulate (a b : List Char) : ℕ :=
  (List.zip a b).foldl (fun result p => result ||| (p.1.toNat ^^^ p.2.toNat)) 0

/-- Instrumented `secureCompare(a, b)` from `src/index.js`: the boolean
result paired with the number of loop iterations executed (the loop runs
`a.length` times whenever both arguments are strings of equal length, and
never runs otherwise). -/
def secureCompareScan (a b : JsVal) : Bool × ℕ :=
  match a, b with
  | .str sa, .str sb =>
    if sa.length != sb.length then (false, 0)
    else (xorAccumulate sa.data sb.data == 0, sa.length)
  | _, _ => (false, 0)

/-- `secureCompare(a, b)` from `src/index.js`. -/
def secureCompare (a b : JsVal) : Bool := (secureCompareScan a b).1

/-- `s.substring(0, n)` on a string value: the first `n` characters. -/
def strTake (s : String) (n : ℕ) : String := ⟨s.data.take n⟩

/-- `v.substring(0, n)` on an arbitrary value: strings have the method,
every other value (no such method) raises a `TypeError`. -/
def jsSubstring (v : JsVal) (n : ℕ) : Except Unit String :=
  match v with
  | .str s => .ok (strTake s n)
  | _ => .error ()

/-- Minimal JSON string escaping (quote and backslash), enough for the
values this worker serializes; control-character escapes are not modelled
and are not load-bearing for any theorem. -/
def jsonEscape (s : String) : String :=
  ⟨s.data.foldr (fun c acc =>
    if c = '"' || c = '\\' then '\\' :: c :: acc else c :: acc) []⟩

/-- `JSON.stringify(v)` for the defined values the worker can serialize.
Inside arrays `undefined` serializes as `null` and inside objects
`undefined`-valued keys are dropped; the call site in `createBuildEmbed`
only ever receives a truthy value, so the top-level `undefined` case is
unreachable there and is rendered as the literal text for totality. -/
def jsonStringify : JsVal → String
  | .undefined => "undefined"
  | .null => "null"
  | .bool true => "true"
  | .bool false => "false"
  | .num q => qToString q
  | .str s => "\"" ++ jsonEscape s ++ "\""
  | .arr xs => "[" ++ String.intercalate ","
      (xs.attach.map fun x =>
        match x with
        | ⟨.undefined, _⟩ => "null"
        | ⟨v, hv⟩ => jsonStringify v) ++ "]"
  | .obj fs => "\x7b" ++ String.intercalate ","
      (fs.attach.filterMap fun x =>
        match x with
        | ⟨(_, .undefined), _⟩ => none
        | ⟨(k, v), hv⟩ => some ("\"" ++ jsonEscape k ++ "\":" ++ jsonStringify v)) ++ "\x7d"
decreasing_by
  all_goals simp_wf
  · have := List.sizeOf_lt_of_mem hv; omega
  · have := List.sizeOf_lt_of_mem hv; simp at this; omega

/-- One display field of a Discord embed: `name`, `value` and the
`inline` layout flag, exactly the object pushed onto `embed.fields`. -/
structure EmbedField where
  name : String
  value : JsVal
  inline : Bool

/-- The embed object built by `createBuildEmbed` in `src/discord.js`. -/
structure Embed where
  title : String
  description : String
  color : ℕ
  timestamp : JsVal
  fields : List EmbedField
  footerText : String

/-- The conditional "Commit" field of `createBuildEmbed`: when
`commitHash` is truthy, `commitHash.substring(0, 7)` is taken (a
`TypeError` — the `.error` case — if the truthy hash is not a string) and
the short hash is rendered as a link when `commitUrl` is truthy. -/
def commitFieldsOf (info : DeploymentInfo) : Except Unit (List EmbedField) :=
  if info.commitHash.truthy then
    match jsSubstring info.commitHash 7 with
    | .error e => .error e
    | .ok shortHash =>
      let commitText := if info.commitUrl.truthy
        then "[`" ++ shortHash ++ "`](" ++ jsToString info.commitUrl ++ ")"
        else "`" ++ shortHash ++ "`"
      .ok [⟨"Commit", .str commitText, true⟩]
  else .ok []

/-- The "Commit Message" truncation of `createBuildEmbed`: a string longer
than 200 characters is cut to its first 197 characters plus `"..."`; any
other value passes through unchanged (a non-string has no `.length`
property, and `undefined > 200` is false). -/
def truncateCommitMessage : JsVal → JsVal
  | .str m => if m.length > 200 then .str (strTake m 197 ++ "...") else .str m
  | v => v

/-- `createBuildEmbed(deploymentInfo)` from `src/discord.js`. -/
def createBuildEmbed (info : DeploymentInfo) : Except Unit Embed :=
  match commitFieldsOf info with
  | .error e => .error e
  | .ok commitFields =>
    let color : ℕ := if info.isSuccess then 0x00ff00
      else if info.isFailure then 0xff0000 else 0xffff00
    let statusEmoji := if info.isSuccess then "✅"
      else if info.isFailure then "❌" else "⚠️"
    let statusText := if info.isSuccess then "Success"
      else if info.isFailure then "Failure" else "Unknown"
    let description :=
      if info.isFailure && info.errorMessage.truthy then
        "**Error:** " ++ jsToString info.errorMessage
      else if info.isSuccess then "Build completed successfully"
      else "Build status: " ++ jsToString info.status
    let branchFields := if info.branch.truthy then
        [⟨"Branch", .str ("`" ++ jsToString info.branch ++ "`"), true⟩] else []
    let buildTimeFields : List EmbedField :=
      -- `if (buildTime !== null)`
      match info.buildTime with
      | .null => []
      | bt => [⟨"Build Time", .str (formatBuildTime bt), true⟩]
    let authorFields := if info.commitAuthor.truthy then
        [⟨"Author", info.commitAuthor, true⟩] else []
    let messageFields := if info.commitMessage.truthy then
        [⟨"Commit Message", truncateCommitMessage info.commitMessage, false⟩] else []
    let deployFields := if info.deploymentUrl.truthy then
        [⟨"Deployment",
          .str ("[View Deployment](" ++ jsToString info.deploymentUrl ++ ")"),
          true⟩] else []
    let logsFields := if info.buildLogsUrl.truthy then
        [⟨"Build Logs",
          .str ("[View Logs](" ++ jsToString info.buildLogsUrl ++ ")"),
          true⟩] else []
    let errorFields := if info.isFailure && info.error.truthy then
        let errorText := match info.error with
          | .str s => strTake s 1000  -- Discord field limit
          | v => strTake (jsonStringify v) 1000
        [⟨"Error Details", .str ("```" ++ errorText ++ "```"), false⟩]
      else []
    .ok {
      title := statusEmoji ++ " Build " ++ statusText ++ " - " ++
        jsToString info.projectName
      description := description
      color := color
      timestamp := info.createdAt
      fields := branchFields ++ commitFields ++ buildTimeFields ++
        authorFields ++ messageFields ++ deployFields ++ logsFields ++ errorFields
      footerText := "Deployment ID: " ++ jsToString (jsOr info.id (.str "unknown"))
    }

/-- The worker environment bindings read by `handleWebhook` in
`src/index.js`. Configured secrets are strings; an unset binding is
`undefined`. -/
structure Env where
  DISCORD_BOT_TOKEN : JsVal
  DISCORD_CHANNEL_ID : JsVal
  WEBHOOK_SECRET : JsVal
  GITHUB_REPO_OWNER : JsVal
  GITHUB_REPO_NAME : JsVal

/-- The parts of the inbound request `handleWebhook` consumes: the
`X-Webhook-Secret` header (`none` when the header is absent) and the
result of `await request.json()` (`.error` when the body is not valid
JSON). -/
structure WebhookRequest where
  xWebhookSecret : Option String
  jsonBody : Except Unit JsVal

/-- `request.headers.get('X-Webhook-Secret')`: the header value, or the
JavaScript `null` when the header is absent. -/
def headerValue : Option String → JsVal
  | none => .null
  | some s => .str s

/-- `jsonResponse(data, status)` from `src/index.js`; the body is kept
structured rather than serialized. -/
structure HttpResponse where
  status : ℕ
  body : JsVal

def jsonResponse (data : JsVal) (status : ℕ) : HttpResponse :=
  ⟨status, data⟩

/-- One call to `bot.sendBuildNotification(channelId, deploymentInfo)`:
the channel it targets and the deployment info handed to it. -/
structure DeliveryCall where
  channelId : JsVal
  info : DeploymentInfo

/-- `handleWebhook(request, env)` from `src/index.js`, returning the HTTP
response together with the list of Discord delivery calls performed.

`now` stands for `new Date().toISOString()` inside the parser.
`deliveryResult` is the outcome of the one outbound network interaction,
`await bot.sendBuildNotification(...)`: `.ok` when the Discord API
answered 2xx, `.error msg` when the awaited call threw (`sendMessage`
raises `Error('Discord API error: ...')` on any non-2xx response), with
`msg` the thrown error's message. A parser throw and a delivery throw are
both caught by the surrounding `try`/`catch`, which answers 500 with the
fixed generic body. -/
def handleWebhook (env : Env) (req : WebhookRequest) (now : String)
    (deliveryResult : Except String Unit) : HttpResponse × List DeliveryCall :=
  if !env.DISCORD_BOT_TOKEN.truthy then
    (jsonResponse (.obj [("error", .str "Bot token not configured")]) 500, [])
  else if !env.DISCORD_CHANNEL_ID.truthy then
    (jsonResponse (.obj [("error", .str "Discord channel ID not configured")]) 500, [])
  else if env.WEBHOOK_SECRET.truthy &&
      !secureCompare (headerValue req.xWebhookSecret) env.WEBHOOK_SECRET then
    (jsonResponse (.obj [("error", .str "Unauthorized")]) 401, [])
  else
    match req.jsonBody with
    | .error _ => (jsonResponse (.obj [("error", .str "Invalid JSON payload")]) 400, [])
    | .ok payload =>
      if !isValidPayload payload then
        (jsonResponse (.obj [("error", .str "Invalid payload structure")]) 400, [])
      else
        match parseDeploymentEvent now payload with
        | .error _ =>
          -- a parser throw lands in the outer catch
          (jsonResponse (.obj [("error", .str "Internal server error")]) 500, [])
        | .ok deploymentInfo =>
          -- `deploymentInfo.repoOwner` / `.repoName` are read here but the
          -- parser never defines them, hence `undefined`
          let repoOwner := jsOr env.GITHUB_REPO_OWNER
            (jsOr .undefined (.str "TLC-Community-Survey"))
          let repoName := jsOr env.GITHUB_REPO_NAME
            (jsOr .undefined (.str "Survey"))
          let deploymentInfo :=
            if deploymentInfo.commitHash.truthy && !deploymentInfo.commitUrl.truthy then
              { deploymentInfo with
                commitUrl := getCommitUrl repoOwner repoName deploymentInfo.commitHash }
            else deploymentInfo
          if !deploymentInfo.isSuccess && !deploymentInfo.isFailure then
            (jsonResponse
              (.obj [("message", .str "Build still in progress, skipping notification")])
              200, [])
          else
            let calls := [⟨env.DISCORD_CHANNEL_ID, deploymentInfo⟩]
            match deliveryResult with
            | .error _ =>
              -- the delivery throw lands in the outer catch; the body is
              -- the fixed generic object, no detail of the error is copied
              (jsonResponse (.obj [("error", .str "Internal server error")]) 500, calls)
            | .ok _ =>
              (jsonResponse (.obj [
                ("success", .bool true),
                ("deploymentId", deploymentInfo.id),
                ("status", deploymentInfo.status)]) 200, calls)

/-- A concrete webhook payload with a non-terminal (`"building"`) status. -/
def buildingPayload : JsVal :=
  .obj [("deployment", .obj [("id", .str "d1"), ("status", .str "building")])]

/-- The record `parseDeploymentEvent "now" buildingPayload` produces. -/
def buildingInfo : DeploymentInfo :=
  { id := .str "d1", projectName := .str "tlc-survey",
    environment := .str "production", status := .str "building",
    isSuccess := false, isFailure := false, branch := .str "main",
    commitHash := .str "", commitMessage := .str "", commitAuthor := .str "",
    deploymentUrl := .str "", buildLogsUrl := .str "", commitUrl := .str "",
    buildTime := .null, createdAt := .str "now", error := .null,
    errorMessage := .null, stages := .arr [], latestStage := .null,
    raw := buildingPayload }

/-- A concrete flat webhook payload with status `"success"`. -/
def successPayload : JsVal :=
  .obj [("id", .str "d9"), ("status", .str "success")]

/-- The record `parseDeploymentEvent "now" successPayload` produces. -/
def successInfo : DeploymentInfo :=
  { id := .str "d9", projectName := .str "tlc-survey",
    environment := .str "production", status := .str "success",
    isSuccess := true, isFailure := false, branch := .str "main",
    commitHash := .str "", commitMessage := .str "", commitAuthor := .str "",
    deploymentUrl := .str "", buildLogsUrl := .str "", commitUrl := .str "",
    buildTime := .null, createdAt := .str "now", error := .null,
    errorMessage := .null, stages := .arr [], latestStage := .null,
    raw := successPayload }

/-- A worker environment with token and channel configured, no secret. -/
def envNoSecret : Env := ⟨.str "token", .str "chan", .undefined, .undefined, .undefined⟩

/-- A worker environment with token, channel and webhook secret. -/
def envWithSecret : Env := ⟨.str "token", .str "chan", .str "sec", .undefined, .undefined⟩

theorem jsOr_eq_firstTruthy (a b : JsVal) : jsOr a b = firstTruthy [a] b := by
  simp [jsOr, firstTruthy]

theorem jsOr_jsOr_eq_firstTruthy (a b c : JsVal) :
    jsOr a (jsOr b c) = firstTruthy [a, b] c := by
  simp [jsOr, firstTruthy]

theorem jsEqStrLit_eq_true_iff (v : JsVal) (s : String) :
    jsEqStrLit v s = true ↔ v = .str s := by
  cases v <;> simp [jsEqStrLit]

theorem truthy_jsOr (a b : JsVal) :
    (jsOr a b).truthy = (a.truthy || b.truthy) := by
  by_cases h : a.truthy <;> simp [jsOr, h]

theorem lor_eq_zero_iff (a b : ℕ) : a ||| b = 0 ↔ a = 0 ∧ b = 0 := by
  constructor
  · intro h
    constructor <;>
      · apply Nat.eq_of_testBit_eq
        intro i
        have hb := congrArg (fun n => n.testBit i) h
        simp [Nat.testBit_or] at hb
        simp [hb]
  · rintro ⟨rfl, rfl⟩
    rfl

theorem char_toNat_inj {a b : Char} (h : a.toNat = b.toNat) : a = b := by
  have := congrArg Char.ofNat h
  rwa [Char.ofNat_toNat, Char.ofNat_toNat] at this

theorem xorAccumulate_foldl (l : List (Char × Char)) (acc : ℕ) :
    (l.foldl (fun result p => result ||| (p.1.toNat ^^^ p.2.toNat)) acc = 0) ↔
      acc = 0 ∧ ∀ p ∈ l, p.1 = p.2 := by
  induction l generalizing acc with
  | nil => simp
  | cons p l ih =>
    simp only [List.foldl_cons, ih, lor_eq_zero_iff, List.mem_cons]
    constructor
    · rintro ⟨⟨h1, h2⟩, h3⟩
      refine ⟨h1, ?_⟩
      rintro q (rfl | hq)
      · exact char_toNat_inj (Nat.xor_eq_zero.mp h2)
      · exact h3 q hq
    · rintro ⟨h1, h2⟩
      refine ⟨⟨h1, ?_⟩, fun q hq => h2 q (Or.inr hq)⟩
      rw [h2 p (Or.inl rfl)]
      exact Nat.xor_self _

theorem zip_forall_eq_iff : ∀ {a b : List Char}, a.length = b.length →
    ((∀ p ∈ List.zip a b, p.1 = p.2) ↔ a = b) := by
  intro a
  induction a with
  | nil => intro b h; cases b <;> simp_all
  | cons x xs ih =>
    intro b h
    cases b with
    | nil => simp_all
    | cons y ys =>
      simp only [List.zip_cons_cons, List.mem_cons, List.length_cons] at h ⊢
      have := @ih ys (by omega)
      constructor
      · intro hp
        have hx : x = y := hp (x, y) (Or.inl rfl)
        have : xs = ys := this.mp fun q hq => hp q (Or.inr hq)
        simp [hx, this]
      · rintro ⟨rfl, rfl⟩
        rintro q (rfl | hq)
        · rfl
        · exact this.mpr rfl q hq

theorem xorAccumulate_eq_zero_iff {a b : List Char} (h : a.length = b.length) :
    (xorAccumulate a b = 0) ↔ a = b := by
  unfold xorAccumulate
  rw [xorAccumulate_foldl]
  constructor
  · rintro ⟨-, hp⟩
    exact (zip_forall_eq_iff h).mp hp
  · intro hab
    exact ⟨rfl, (zip_forall_eq_iff h).mpr hab⟩

theorem parse_status_flags (now : String) (p : JsVal) (info : DeploymentInfo)
    (h : parseDeploymentEvent now p = .ok info) :
    info.isSuccess = jsEqStrLit (resolvedStatus p) "success" ∧
    info.isFailure = jsEqStrLit (resolvedStatus p) "failure" := by
  rcases p with _ | _ | b | q | s | xs | fs <;>
    simp only [parseDeploymentEvent] at h <;>
    cases h <;>
    exact ⟨rfl, rfl⟩

/-- C2: `isSuccess` holds iff the resolved status value is exactly the
string `"success"`, `isFailure` iff it is exactly `"failure"`
(case-sensitive), synonyms and other casings such as `"succeeded"` and
`"SUCCESS"` classify as neither, and the two flags are never both true. -/
theorem c2_status_classification (now : String) (p : JsVal)
    (info : DeploymentInfo) (h : parseDeploymentEvent now p = .ok info) :
    (info.isSuccess = true ↔ resolvedStatus p = .str "success") ∧
    (info.isFailure = true ↔ resolvedStatus p = .str "failure") ∧
    ¬(info.isSuccess = true ∧ info.isFailure = true) ∧
    (resolvedStatus p = .str "succeeded" →
      info.isSuccess = false ∧ info.isFailure = false) ∧
    (resolvedStatus p = .str "SUCCESS" →
      info.isSuccess = false ∧ info.isFailure = false) := by
  obtain ⟨hs, hf⟩ := parse_status_flags now p info h
  refine ⟨?_, ?_, ?_, ?_, ?_⟩
  · rw [hs]; exact jsEqStrLit_eq_true_iff _ _
  · rw [hf]; exact jsEqStrLit_eq_true_iff _ _
  · rintro ⟨h1, h2⟩
    rw [hs] at h1
    rw [hf] at h2
    have e1 := (jsEqStrLit_eq_true_iff _ _).mp h1
    have e2 := (jsEqStrLit_eq_true_iff _ _).mp h2
    rw [e1] at e2
    simp at e2
  · intro hr
    rw [hs, hf, hr]
    exact ⟨by decide, by decide⟩
  · intro hr
    rw [hs, hf, hr]
    exact ⟨by decide, by decide⟩

/-- C2 witness: a payload with `deployment.latest_stage.status` equal to
`"success"` classifies as a success and not a failure, and one carrying
`"succeeded"` classifies as neither. -/
theorem c2_status_classification_witness :
    (parseDeploymentEvent "now"
        (.obj [("deployment",
          .obj [("latest_stage", .obj [("status", .str "success")])])])).map
      DeploymentInfo.isSuccess = .ok true ∧
    (parseDeploymentEvent "now"
        (.obj [("deployment",
          .obj [("latest_stage", .obj [("status", .str "success")])])])).map
      DeploymentInfo.isFailure = .ok false ∧
    (parseDeploymentEvent "now"
        (.obj [("status", .str "succeeded")])).map
      DeploymentInfo.isSuccess = .ok false := by
  obtain ⟨i1, h1⟩ : ∃ i, parseDeploymentEvent "now"
      (.obj [("deployment",
        .obj [("latest_stage", .obj [("status", .str "success")])])]) = .ok i :=
    ⟨_, rfl⟩
  obtain ⟨i2, h2⟩ : ∃ i, parseDeploymentEvent "now"
      (.obj [("status", .str "succeeded")]) = .ok i := ⟨_, rfl⟩
  have w1 := c2_status_classification "now" _ i1 h1
  have w2 := c2_status_classification "now" _ i2 h2
  have hs1 : i1.isSuccess = true := w1.1.mpr rfl
  have hf1 : i1.isFailure = false := by
    rcases hx : i1.isFailure with _ | _
    · rfl
    · have := w1.2.1.mp hx
      simp [resolvedStatus, jsOr, JsVal.get, JsVal.getOpt, JsVal.truthy] at this
  have hs2 : i2.isSuccess = false := (w2.2.2.2.1 rfl).1
  rw [h1, h2, Except.map, Except.map, Except.map, hs1, hf1, hs2]
  exact ⟨rfl, rfl, rfl⟩

/-- C3: the validator rejects `null` and every non-object; an object is
accepted exactly when one of the deployment-identifying reads
(`deployment`, `deployment_id`, `id`) or one of the status-like reads
(`status`, `deployment?.status`, `latest_stage?.status`) yields a truthy
value — in particular an object carrying only a (truthy) status field is
accepted, and an object with none of these fields is rejected. -/
theorem c3_isValidPayload (p : JsVal) :
    (p = .null ∨ jsTypeofObject p = false → isValidPayload p = false) ∧
    (jsTypeofObject p = true → p ≠ .null →
      (isValidPayload p = true ↔
        ((p.get "deployment").truthy = true ∨
         (p.get "deployment_id").truthy = true ∨
         (p.get "id").truthy = true ∨
         (p.get "status").truthy = true ∨
         ((p.get "deployment").getOpt "status").truthy = true ∨
         ((p.get "latest_stage").getOpt "status").truthy = true))) := by
  constructor
  · rintro (rfl | hobj)
    · rfl
    · rcases p with _ | _ | b | q | s | xs | fs <;>
        simp_all [isValidPayload, jsTypeofObject]
  · intro hobj hnull
    rcases p with _ | _ | b | q | s | xs | fs
    · simp [jsTypeofObject] at hobj
    · exact absurd rfl hnull
    · simp [jsTypeofObject] at hobj
    · simp [jsTypeofObject] at hobj
    · simp [jsTypeofObject] at hobj
    · have g1 : (JsVal.arr xs).truthy = true := rfl
      simp [isValidPayload, g1, jsTypeofObject, truthy_jsOr, or_assoc]
    · have g1 : (JsVal.obj fs).truthy = true := rfl
      simp [isValidPayload, g1, jsTypeofObject, truthy_jsOr, or_assoc]

/-- C3 witness: `{status: "building"}` (status only) is accepted and
`{other: "x"}` (no identifying or status field) is rejected. -/
theorem c3_isValidPayload_witness :
    isValidPayload (.obj [("status", .str "building")]) = true ∧
    isValidPayload (.obj [("other", .str "x")]) = false := by
  constructor
  · exact (c3_isValidPayload (.obj [("status", .str "building")])).2 rfl
      (by intro hx; cases hx) |>.mpr (by
        refine Or.inr (Or.inr (Or.inr (Or.inl ?_)))
        rfl)
  · by_contra hx
    have hv : isValidPayload (.obj [("other", .str "x")]) = true := by
      revert hx
      cases isValidPayload (.obj [("other", .str "x")]) <;> simp
    have := (c3_isValidPayload (.obj [("other", .str "x")])).2 rfl
      (by intro hy; cases hy) |>.mp hv
    rcases this with h | h | h | h | h | h <;> exact absurd h (by decide)

/-- C9: every payload the validator accepts is parsed without a thrown
error into a record defining all twenty canonical fields (the
`DeploymentInfo` structure), including objects whose `deployment` key
holds a non-object value and objects lacking `latest_stage`, git, URL,
timing and error fields entirely. -/
theorem c9_parse_total_on_valid (now : String) (p : JsVal)
    (h : isValidPayload p = true) :
    ∃ info : DeploymentInfo, parseDeploymentEvent now p = .ok info := by
  rcases p with _ | _ | b | q | s | xs | fs
  · simp [isValidPayload, JsVal.truthy] at h
  · simp [isValidPayload, JsVal.truthy] at h
  · simp [isValidPayload, jsTypeofObject] at h
  · simp [isValidPayload, jsTypeofObject] at h
  · simp [isValidPayload, jsTypeofObject] at h
  · exact ⟨_, rfl⟩
  · exact ⟨_, rfl⟩

/-- C9 witness: the parser succeeds on a valid payload whose `deployment`
key holds a (truthy) non-object and which lacks every optional field. -/
theorem c9_parse_total_on_valid_witness :
    (parseDeploymentEvent "now" (.obj [("deployment", .str "weird")])).isOk
      = true := by
  obtain ⟨info, hinfo⟩ :=
    c9_parse_total_on_valid "now" (.obj [("deployment", .str "weird")]) rfl
  rw [hinfo]
  rfl

/-- C4: with a webhook secret configured, the inbound `X-Webhook-Secret`
header is checked by `secureCompare`: strings of different length are
rejected with zero loop iterations; on equal-length strings the XOR loop
always executes exactly `a.length` iterations, with no early exit
whatever the position of the first mismatch; the comparison returns true
exactly for identical strings; and a failed comparison makes
`handleWebhook` answer 401 with no delivery. -/
theorem c4_secureCompare_constant_time (a b : String) :
    (a.length ≠ b.length → secureCompare (.str a) (.str b) = false ∧
      (secureCompareScan (.str a) (.str b)).2 = 0) ∧
    (a.length = b.length → (secureCompareScan (.str a) (.str b)).2 = a.length) ∧
    (secureCompare (.str a) (.str b) = true ↔ a = b) ∧
    (∀ (env : Env) (req : WebhookRequest) (now : String) (dr : Except String Unit),
      env.DISCORD_BOT_TOKEN.truthy = true →
      env.DISCORD_CHANNEL_ID.truthy = true →
      env.WEBHOOK_SECRET.truthy = true →
      secureCompare (headerValue req.xWebhookSecret) env.WEBHOOK_SECRET = false →
      handleWebhook env req now dr =
        (jsonResponse (.obj [("error", .str "Unauthorized")]) 401, [])) := by
  refine ⟨?_, ?_, ?_, ?_⟩
  · intro h
    simp [secureCompare, secureCompareScan, h]
  · intro h
    simp [secureCompareScan, h]
  · by_cases h : a.length = b.length
    · have hdata : a.data.length = b.data.length := h
      have hiff := xorAccumulate_eq_zero_iff hdata
      have hstr : a.data = b.data ↔ a = b :=
        ⟨String.ext, fun he => he ▸ rfl⟩
      simp [secureCompare, secureCompareScan, h, hiff, hstr]
    · constructor
      · intro hx
        exfalso
        simp [secureCompare, secureCompareScan, h] at hx
      · rintro rfl
        exact absurd rfl h
  · intro env req now dr h1 h2 h3 h4
    simp [handleWebhook, h1, h2, h3, h4]

/-- C4 witness: a concrete run of each conjunct — mismatched equal-length
strings scan all three positions and compare false, identical strings
compare true, and a configured secret with a wrong header yields 401 and
no delivery. -/
theorem c4_secureCompare_constant_time_witness :
    (secureCompareScan (.str "abc") (.str "abd")).2 = 3 ∧
    secureCompare (.str "abc") (.str "abd") = false ∧
    (secureCompare (.str "abc") (.str "abc") = true) ∧
    handleWebhook
      ⟨.str "token", .str "chan", .str "s3cret", .undefined, .undefined⟩
      ⟨some "wrong!", .ok (.obj [("id", .str "d1")])⟩ "now" (.ok ()) =
      (jsonResponse (.obj [("error", .str "Unauthorized")]) 401, []) := by
  refine ⟨?_, ?_, ?_, ?_⟩
  · exact (c4_secureCompare_constant_time "abc" "abd").2.1 rfl
  · have h := (c4_secureCompare_constant_time "abc" "abd").2.2.1
    by_contra hx
    simp only [Bool.not_eq_false] at hx
    exact absurd (h.mp hx) (by decide)
  · exact (c4_secureCompare_constant_time "abc" "abc").2.2.1.mpr rfl
  · exact (c4_secureCompare_constant_time "wrong!" "s3cret").2.2.2
      ⟨.str "token", .str "chan", .str "s3cret", .undefined, .undefined⟩
      ⟨some "wrong!", .ok (.obj [("id", .str "d1")])⟩ "now" (.ok ())
      rfl rfl rfl (by decide)

theorem commitFieldsOf_no_message (info : DeploymentInfo)
    (cf : List EmbedField) (h : commitFieldsOf info = .ok cf) :
    cf.filter (fun f => f.name == "Commit Message") = [] := by
  unfold commitFieldsOf at h
  by_cases hc : info.commitHash.truthy = true
  · rw [if_pos hc] at h
    rcases hs : jsSubstring info.commitHash 7 with e | sh <;> rw [hs] at h
    · cases h
    · injection h with h
      subst h
      simp [List.filter]
  · rw [if_neg hc] at h
    injection h with h
    subst h
    rfl

set_option maxHeartbeats 1000000 in
/-- C8: whenever the commit message is a non-empty string, the rendered
embed carries exactly one "Commit Message" field, emitted as a block
(non-inline) field; a message of at most 200 characters passes through
unchanged, and a longer one is cut to its first 197 characters plus the
three-character ellipsis marker `"..."`, 200 characters in total. -/
theorem c8_commit_message_truncation (info : DeploymentInfo) (m : String)
    (e : Embed) (hm : info.commitMessage = .str m) (hne : m ≠ "")
    (he : createBuildEmbed info = .ok e) :
    e.fields.filter (fun f => f.name == "Commit Message") =
      [⟨"Commit Message",
        .str (if m.length > 200 then strTake m 197 ++ "..." else m), false⟩] ∧
    (m.length ≤ 200 →
      (if m.length > 200 then strTake m 197 ++ "..." else m) = m) ∧
    (m.length > 200 →
      (if m.length > 200 then strTake m 197 ++ "..." else m) =
        strTake m 197 ++ "..." ∧
      (strTake m 197 ++ "...").length = 200 ∧
      (strTake m 197).length = 197) := by
  refine ⟨?_, ?_, ?_⟩
  · rcases hcf : commitFieldsOf info with e' | cf
    · simp only [createBuildEmbed, hcf] at he
      cases he
    · simp only [createBuildEmbed, hcf] at he
      injection he with he
      subst he
      have hmt : (JsVal.str m).truthy = true := by
        simp [JsVal.truthy, hne]
      simp only [List.filter_append, commitFieldsOf_no_message info cf hcf,
        hm, hmt, eq_self_iff_true, if_true, truncateCommitMessage]
      split_ifs <;>
        simp [List.filter, apply_ite] <;>
        (rcases info.buildTime <;> simp)
  · intro hle
    rw [if_neg (by omega)]
  · intro hgt
    have hdata : m.length = m.data.length := rfl
    have htake : (strTake m 197).length = 197 := by
      show (m.data.take 197).length = 197
      rw [List.length_take]
      omega
    refine ⟨if_pos hgt, ?_, htake⟩
    rw [String.length_append, htake]
    rfl

set_option maxRecDepth 4000 in
set_option maxHeartbeats 1000000 in
/-- C8 witness: a 250-character message is rendered as its first 197
characters plus `"..."` in a single block field, and a 150-character
message passes through unchanged. -/
theorem c8_commit_message_truncation_witness :
    ((createBuildEmbed
        { successInfo with
          commitMessage := .str (String.mk (List.replicate 250 'a')) }).map
      fun e => e.fields.filter fun f => f.name == "Commit Message") =
      .ok [⟨"Commit Message",
        .str (strTake (String.mk (List.replicate 250 'a')) 197 ++ "..."),
        false⟩] ∧
    (strTake (String.mk (List.replicate 250 'a')) 197 ++ "...").length = 200 ∧
    ((createBuildEmbed
        { successInfo with
          commitMessage := .str (String.mk (List.replicate 150 'b')) }).map
      fun e => e.fields.filter fun f => f.name == "Commit Message") =
      .ok [⟨"Commit Message",
        .str (String.mk (List.replicate 150 'b')), false⟩] := by
  obtain ⟨e1, he1⟩ : ∃ e, createBuildEmbed
      { successInfo with
        commitMessage := .str (String.mk (List.replicate 250 'a')) } =
      .ok e := ⟨_, rfl⟩
  obtain ⟨e2, he2⟩ : ∃ e, createBuildEmbed
      { successInfo with
        commitMessage := .str (String.mk (List.replicate 150 'b')) } =
      .ok e := ⟨_, rfl⟩
  have h1 := c8_commit_message_truncation _ _ e1 rfl (by decide) he1
  have h2 := c8_commit_message_truncation _ _ e2 rfl (by decide) he2
  have hlen1 : (String.mk (List.replicate 250 'a')).length = 250 := by
    show (List.replicate 250 'a').length = 250
    rw [List.length_replicate]
  have hlen2 : (String.mk (List.replicate 150 'b')).length = 150 := by
    show (List.replicate 150 'b').length = 150
    rw [List.length_replicate]
  refine ⟨?_, ?_, ?_⟩
  · rw [he1, Except.map, h1.1, if_pos (by omega)]
  · exact (h1.2.2 (by omega)).2.1
  · rw [he2, Except.map, h2.1, if_neg (by omega)]

/-- C5: for every valid payload whose resolved status is neither
`"success"` nor `"failure"`, the handler (whatever the delivery oracle
would have answered) responds 200 with the skipping message and performs
no Discord delivery call. -/
theorem c5_nonterminal_skips_delivery (env : Env) (req : WebhookRequest)
    (now : String) (p : JsVal) (info : DeploymentInfo)
    (dr : Except String Unit)
    (htok : env.DISCORD_BOT_TOKEN.truthy = true)
    (hch : env.DISCORD_CHANNEL_ID.truthy = true)
    (hsec : env.WEBHOOK_SECRET.truthy = false ∨
      secureCompare (headerValue req.xWebhookSecret) env.WEBHOOK_SECRET = true)
    (hbody : req.jsonBody = .ok p)
    (hvalid : isValidPayload p = true)
    (hparse : parseDeploymentEvent now p = .ok info)
    (hns : info.isSuccess = false) (hnf : info.isFailure = false) :
    handleWebhook env req now dr =
      (jsonResponse (.obj [("message",
        .str "Build still in progress, skipping notification")]) 200, []) := by
  rcases hsec with hsec | hsec <;>
    simp [handleWebhook, htok, hch, hsec, hbody, hvalid, hparse, hns, hnf,
      apply_ite]

/-- C5 witness: a POST with status `"building"` yields 200, the skip
message and an empty delivery list. -/
theorem c5_nonterminal_skips_delivery_witness :
    handleWebhook envNoSecret ⟨none, .ok buildingPayload⟩ "now" (.ok ()) =
      (jsonResponse (.obj [("message",
        .str "Build still in progress, skipping notification")]) 200, []) :=
  c5_nonterminal_skips_delivery envNoSecret ⟨none, .ok buildingPayload⟩ "now"
    buildingPayload buildingInfo (.ok ()) rfl rfl (Or.inl rfl) rfl rfl rfl
    rfl rfl

/-- C6: an uncaught error in the processing sequence — here the one
throwing step, the awaited Discord delivery (a non-2xx response is
rethrown as an exception by `sendMessage`) — produces a 500 response with
the fixed generic body; moreover the handler's entire result is
independent of the thrown error's message, so no internal detail can
leak into the response. -/
theorem c6_uncaught_errors_generic_500 (msg msg2 : String) :
    (∀ (env : Env) (req : WebhookRequest) (now : String),
      handleWebhook env req now (.error msg) =
        handleWebhook env req now (.error msg2)) ∧
    (∀ (env : Env) (req : WebhookRequest) (now : String) (p : JsVal)
      (info : DeploymentInfo),
      env.DISCORD_BOT_TOKEN.truthy = true →
      env.DISCORD_CHANNEL_ID.truthy = true →
      (env.WEBHOOK_SECRET.truthy = false ∨
        secureCompare (headerValue req.xWebhookSecret) env.WEBHOOK_SECRET = true) →
      req.jsonBody = .ok p →
      isValidPayload p = true →
      parseDeploymentEvent now p = .ok info →
      (info.isSuccess = true ∨ info.isFailure = true) →
      (handleWebhook env req now (.error msg)).1 =
        jsonResponse (.obj [("error", .str "Internal server error")]) 500) := by
  constructor
  · intro env req now
    rfl
  · intro env req now p info htok hch hsec hbody hvalid hparse hterm
    rcases hsec with hsec | hsec <;> rcases hterm with ht | ht <;>
      simp [handleWebhook, htok, hch, hsec, hbody, hvalid, hparse, ht,
        apply_ite]

/-- C6 witness: a failing delivery on a success payload yields the
generic 500 response, and swapping the thrown error's message for one
full of internal detail leaves the handler's result unchanged. -/
theorem c6_uncaught_errors_generic_500_witness :
    (handleWebhook envNoSecret ⟨none, .ok successPayload⟩ "now"
        (.error "boom")).1 =
      jsonResponse (.obj [("error", .str "Internal server error")]) 500 ∧
    handleWebhook envNoSecret ⟨none, .ok successPayload⟩ "now"
        (.error "boom") =
      handleWebhook envNoSecret ⟨none, .ok successPayload⟩ "now"
        (.error "Discord API error: 403 Forbidden - secret internals") :=
  ⟨(c6_uncaught_errors_generic_500 "boom" "x").2 envNoSecret
      ⟨none, .ok successPayload⟩ "now" successPayload successInfo rfl rfl
      (Or.inl rfl) rfl rfl rfl (Or.inl rfl),
    (c6_uncaught_errors_generic_500 "boom"
      "Discord API error: 403 Forbidden - secret internals").1 envNoSecret
      ⟨none, .ok successPayload⟩ "now"⟩

/-- C10: with a webhook secret configured and no `X-Webhook-Secret`
header on the request, the comparison receives the JavaScript `null`,
`secureCompare` rejects it on its type check, and the handler answers 401
with no delivery — exactly as for a mismatched secret. -/
theorem c10_missing_header_unauthorized (env : Env) (req : WebhookRequest)
    (now : String) (dr : Except String Unit)
    (htok : env.DISCORD_BOT_TOKEN.truthy = true)
    (hch : env.DISCORD_CHANNEL_ID.truthy = true)
    (hsec : env.WEBHOOK_SECRET.truthy = true)
    (hhdr : req.xWebhookSecret = none) :
    secureCompare (headerValue req.xWebhookSecret) env.WEBHOOK_SECRET = false ∧
    handleWebhook env req now dr =
      (jsonResponse (.obj [("error", .str "Unauthorized")]) 401, []) := by
  have hcmp : secureCompare (headerValue req.xWebhookSecret)
      env.WEBHOOK_SECRET = false := by
    rw [hhdr]
    cases env.WEBHOOK_SECRET <;> rfl
  exact ⟨hcmp, by simp [handleWebhook, htok, hch, hsec, hcmp]⟩

/-- C10 witness: a concrete secret-configured environment and a request
without the header get the 401 response and no delivery. -/
theorem c10_missing_header_unauthorized_witness :
    secureCompare (headerValue (none : Option String)) (.str "sec") = false ∧
    handleWebhook envWithSecret ⟨none, .ok successPayload⟩ "now" (.ok ()) =
      (jsonResponse (.obj [("error", .str "Unauthorized")]) 401, []) :=
  c10_missing_header_unauthorized envWithSecret ⟨none, .ok successPayload⟩
    "now" (.ok ()) rfl rfl rfl rfl

/-- C7: the duration formatter maps every falsy input (`null`, `0`, ...)
to `"N/A"`; every positive input under 60 to the rounded seconds followed
by `"s"`; and every input of 60 or more to `"{m}m"` when the rounded
remainder of `seconds % 60` is zero, else `"{m}m {s}s"`, with
`m = ⌊seconds / 60⌋` and `s` the rounded remainder; in particular `5.7`
renders `"6s"`, `65` renders `"1m 5s"` and `120` renders `"2m"`. -/
theorem formatBuildTime_falsy (v : JsVal) (hv : v.truthy = false) :
    formatBuildTime v = "N/A" := by
  simp [formatBuildTime, hv]

theorem formatBuildTime_small (q : ℚ) (h0 : 0 < q) (h60 : q < 60) :
    formatBuildTime (.num q) = toString (jsRound q) ++ "s" := by
  simp [formatBuildTime, JsVal.truthy, jsToNumber, h0.ne', h60]

theorem formatBuildTime_large (q : ℚ) (h : 60 ≤ q) :
    formatBuildTime (.num q) =
      if jsRound (q - 60 * ⌊q / 60⌋) = 0 then toString (⌊q / 60⌋ : ℤ) ++ "m"
      else toString (⌊q / 60⌋ : ℤ) ++ "m " ++
        toString (jsRound (q - 60 * ⌊q / 60⌋)) ++ "s" := by
  have h60 : ¬ q < 60 := not_lt.mpr h
  have hne : q ≠ 0 := by positivity
  simp [formatBuildTime, JsVal.truthy, jsToNumber, hne, h60]

theorem c7_formatBuildTime :
    (∀ v : JsVal, v.truthy = false → formatBuildTime v = "N/A") ∧
    (∀ q : ℚ, 0 < q → q < 60 →
      formatBuildTime (.num q) = toString (jsRound q) ++ "s") ∧
    (∀ q : ℚ, 60 ≤ q →
      formatBuildTime (.num q) =
        if jsRound (q - 60 * ⌊q / 60⌋) = 0 then toString (⌊q / 60⌋ : ℤ) ++ "m"
        else toString (⌊q / 60⌋ : ℤ) ++ "m " ++
          toString (jsRound (q - 60 * ⌊q / 60⌋)) ++ "s") ∧
    formatBuildTime (.num (57 / 10)) = "6s" ∧
    formatBuildTime (.num 65) = "1m 5s" ∧
    formatBuildTime (.num 120) = "2m" ∧
    formatBuildTime .null = "N/A" ∧
    formatBuildTime (.num 0) = "N/A" := by
  refine ⟨formatBuildTime_falsy, formatBuildTime_small, formatBuildTime_large,
    ?_, ?_, ?_, rfl, rfl⟩
  · rw [formatBuildTime_small (57 / 10) (by norm_num) (by norm_num)]
    rw [show jsRound (57 / 10 : ℚ) = 6 from Int.floor_eq_iff.mpr (by norm_num)]
    rfl
  · rw [formatBuildTime_large 65 (by norm_num)]
    rw [show (⌊(65 : ℚ) / 60⌋ : ℤ) = 1 from Int.floor_eq_iff.mpr (by norm_num)]
    rw [show jsRound ((65 : ℚ) - 60 * ((1 : ℤ) : ℚ)) = 5 from
      Int.floor_eq_iff.mpr (by norm_num)]
    rfl
  · rw [formatBuildTime_large 120 (by norm_num)]
    rw [show (⌊(120 : ℚ) / 60⌋ : ℤ) = 2 from Int.floor_eq_iff.mpr (by norm_num)]
    rw [show jsRound ((120 : ℚ) - 60 * ((2 : ℤ) : ℚ)) = 0 from
      Int.floor_eq_iff.mpr (by norm_num)]
    rfl

/-- C1 counterexample: the claim says a first-priority candidate holding
the number `0` is "present" and must win, but `parseDeploymentEvent`
resolves fields with `||`, for which `0` is falsy: with
`{id: 0, deployment_id: "real-id"}` the resolved id is `"real-id"`,
not `0`. -/
theorem c1_firstPriority_zero_counterexample :
    (parseDeploymentEvent "2024-01-01T00:00:00.000Z"
        (.obj [("id", .num 0), ("deployment_id", .str "real-id")])).map
      DeploymentInfo.id = .ok (.str "real-id") ∧
    (parseDeploymentEvent "2024-01-01T00:00:00.000Z"
        (.obj [("id", .num 0), ("deployment_id", .str "real-id")])).map
      DeploymentInfo.id ≠ .ok (.num 0) := by
  refine ⟨rfl, ?_⟩
  intro h
  exact JsVal.noConfusion (Except.ok.inj h)

/-- C1 (amended): every logical attribute is resolved first-truthy-wins
over its fixed candidate list — a candidate counts as absent exactly when
it is JavaScript-falsy (`undefined`, `null`, empty string, **and also**
`0` and `false`), and when every candidate is absent the attribute takes
its fixed default (for `id`, which has no default, the raw value of the
last candidate). -/
theorem c1_first_truthy_wins (now : String) (payload : JsVal)
    (info : DeploymentInfo)
    (h : parseDeploymentEvent now payload = .ok info) :
    let deployment := jsOr (payload.get "deployment") payload
    let lss := (deployment.get "latest_stage").getOpt "status"
    info.id = firstTruthy [deployment.get "id"] (deployment.get "deployment_id") ∧
    info.projectName = firstTruthy [deployment.get "project_name",
      payload.get "project_name"] (.str "tlc-survey") ∧
    info.environment = firstTruthy [deployment.get "environment"] (.str "production") ∧
    info.status = firstTruthy [lss, deployment.get "status"] (.str "unknown") ∧
    info.branch = firstTruthy [deployment.get "branch",
      deployment.get "git_branch"] (.str "main") ∧
    info.commitHash = firstTruthy [deployment.get "commit_hash",
      deployment.get "git_commit_hash"] (.str "") ∧
    info.commitMessage = firstTruthy [deployment.get "commit_message"] (.str "") ∧
    info.commitAuthor = firstTruthy [deployment.get "commit_author",
      deployment.get "author"] (.str "") ∧
    info.deploymentUrl = firstTruthy [deployment.get "url",
      deployment.get "deployment_url"] (.str "") ∧
    info.buildLogsUrl = firstTruthy [deployment.get "build_logs_url",
      deployment.get "logs_url"] (.str "") ∧
    info.commitUrl = firstTruthy [deployment.get "commit_url"] (.str "") ∧
    info.buildTime = firstTruthy [deployment.get "build_time",
      deployment.get "duration"] .null ∧
    info.createdAt = firstTruthy [deployment.get "created_at",
      deployment.get "created_on"] (.str now) ∧
    info.error = firstTruthy [deployment.get "error",
      deployment.get "build_error"] .null ∧
    info.errorMessage = firstTruthy [deployment.get "error_message",
      deployment.get "message"] .null ∧
    info.stages = firstTruthy [deployment.get "stages"] (.arr []) ∧
    info.latestStage = firstTruthy [deployment.get "latest_stage"] .null := by
  intro deployment lss
  rcases payload with _ | _ | b | q | s | xs | fs <;>
    simp only [parseDeploymentEvent] at h <;>
    cases h <;>
    simp [deployment, lss, jsOr, firstTruthy]

/-- C1 witness: on `{deployment_id: "dep-7"}` (no truthy `id`
candidate), the amended resolution rule yields `"dep-7"`. -/
theorem c1_first_truthy_wins_witness :
    (parseDeploymentEvent "2024-01-01T00:00:00.000Z"
        (.obj [("deployment_id", .str "dep-7")])).map
      DeploymentInfo.id = .ok (.str "dep-7") := by
  obtain ⟨info, hinfo⟩ : ∃ i, parseDeploymentEvent "2024-01-01T00:00:00.000Z"
      (.obj [("deployment_id", .str "dep-7")]) = .ok i := ⟨_, rfl⟩
  have hid := (c1_first_truthy_wins "2024-01-01T00:00:00.000Z"
    (.obj [("deployment_id", .str "dep-7")]) info hinfo).1
  rw [hinfo, Except.map, hid]
  rfl

/-- C7 witness: the general clauses of the theorem applied at `30`
(positive, under a minute), at `false` (falsy) and at `90` (over a
minute). -/
theorem c7_formatBuildTime_witness :
    formatBuildTime (.num 30) = toString (jsRound (30 : ℚ)) ++ "s" ∧
    formatBuildTime (.bool false) = "N/A" ∧
    formatBuildTime (.num 90) =
      (if jsRound ((90 : ℚ) - 60 * ⌊(90 : ℚ) / 60⌋) = 0
        then toString (⌊(90 : ℚ) / 60⌋ : ℤ) ++ "m"
        else toString (⌊(90 : ℚ) / 60⌋ : ℤ) ++ "m " ++
          toString (jsRound ((90 : ℚ) - 60 * ⌊(90 : ℚ) / 60⌋)) ++ "s") :=
  ⟨c7_formatBuildTime.2.1 30 (by norm_num) (by norm_num),
    c7_formatBuildTime.1 (.bool false) rfl,
    c7_formatBuildTime.2.2.1 90 (by norm_num)⟩
